import Mathlib

/-!
Verification development for the MedGPT backend service
(`app/routes/appointments.py` and `app/routes/chatbot.py`).

The Flask endpoints are shallowly embedded as pure Lean functions over an
explicit database state.  JSON values are modelled by `JsonVal` together with
Python truthiness; the relational store is a list of rows; each endpoint
returns a result record that carries the HTTP status, the response payload,
the post-state of the store, and whether a storage connection was opened and
closed (so that connection-release properties can be stated).  Storage
failures are made explicit by a per-endpoint failure-scenario parameter that
names which storage step raises, mirroring the `try`/`except`/`finally`
structure of the source.
-/

/-- A JSON scalar value as it appears in a request body. -/
inductive JsonVal where
  | str (s : String)
  | int (n : Int)
  | bool (b : Bool)
  | null
  deriving DecidableEq, Repr

/-- Python truthiness of a JSON scalar (`if not data.get(field)` in the source):
empty strings, `0`, `False` and `null` are falsy. -/
def JsonVal.truthy : JsonVal → Bool
  | .str s => s ≠ ""
  | .int n => n ≠ 0
  | .bool b => b
  | .null => false

/-- Truthiness of `data.get(field)`: an absent key yields Python `None`, which
is falsy. -/
def jsonTruthy : Option JsonVal → Bool
  | Option.none => false
  | some v => v.truthy

/-- A calendar date as produced by `datetime.strptime(s, "%Y-%m-%d").date()`. -/
structure Date where
  year : Nat
  month : Nat
  day : Nat
  deriving DecidableEq, Repr

/-- A time of day as produced by `datetime.strptime(s, "%H:%M").time()`. -/
structure Time where
  hour : Nat
  minute : Nat
  deriving DecidableEq, Repr

/-- The combination `datetime.combine(date, time)`. -/
structure DateTime where
  date : Date
  time : Time
  deriving DecidableEq, Repr

/-- Chronological order on combined date-times (`<=` on Python `datetime`):
lexicographic on (year, month, day, hour, minute). -/
def DateTime.le (a b : DateTime) : Bool :=
  a.date.year < b.date.year ||
  (a.date.year == b.date.year && (a.date.month < b.date.month ||
  (a.date.month == b.date.month && (a.date.day < b.date.day ||
  (a.date.day == b.date.day && (a.time.hour < b.time.hour ||
  (a.time.hour == b.time.hour && a.time.minute ≤ b.time.minute)))))))

/-- Splitting a character list at every occurrence of a separator, the list
counterpart of splitting a string on a one-character separator. -/
def splitOnChar (c : Char) : List Char → List (List Char)
  | [] => [[]]
  | x :: xs =>
    match splitOnChar c xs with
    | [] => [[]]
    | g :: gs => if x = c then [] :: g :: gs else (x :: g) :: gs

/-- Numeric value of a digit group. -/
def digitsVal (l : List Char) : Nat :=
  l.foldl (fun n c => n * 10 + (c.toNat - 48)) 0

/-- Nonempty all-digit group, the only shape the numeric `strptime`
directives accept. -/
def allDigits (l : List Char) : Bool :=
  !l.isEmpty && l.all Char.isDigit

/-- The storage layer's cast of a text parameter to an integer: an optional
sign followed by at least one digit; anything else makes the query raise. -/
def strToInt? (s : String) : Option Int :=
  match s.toList with
  | '-' :: cs => if allDigits cs then some (-(digitsVal cs : Int)) else Option.none
  | cs => if allDigits cs then some ((digitsVal cs : Int)) else Option.none

/-- Gregorian leap-year rule used by Python's calendar validation. -/
def isLeapYear (y : Nat) : Bool :=
  (y % 4 == 0 && y % 100 != 0) || y % 400 == 0

/-- Number of days in a month, as validated by `strptime`. -/
def daysInMonth (y m : Nat) : Nat :=
  if m == 2 then (if isLeapYear y then 29 else 28)
  else if m == 4 || m == 6 || m == 9 || m == 11 then 30
  else 31

/-- Model of `datetime.strptime(s, "%Y-%m-%d")`: three dash-separated digit
groups (at most 4/2/2 digits), a valid month, and a day valid for that month
and year; the year must be at least 1 (`datetime.MINYEAR`). -/
def parseDate (s : String) : Option Date :=
  match splitOnChar (Char.ofNat 45) s.toList with
  | [ys, ms, ds] =>
    if allDigits ys && ys.length ≤ 4 && allDigits ms && ms.length ≤ 2
        && allDigits ds && ds.length ≤ 2 then
      let y := digitsVal ys
      let m := digitsVal ms
      let d := digitsVal ds
      if 1 ≤ y && 1 ≤ m && m ≤ 12 && 1 ≤ d && d ≤ daysInMonth y m then
        some ⟨y, m, d⟩
      else Option.none
    else Option.none
  | _ => Option.none

/-- Model of `datetime.strptime(s, "%H:%M").time()`: two colon-separated digit
groups of at most 2 digits, hour below 24 and minute below 60. -/
def parseTime (s : String) : Option Time :=
  match splitOnChar (Char.ofNat 58) s.toList with
  | [hs, ms] =>
    if allDigits hs && hs.length ≤ 2 && allDigits ms && ms.length ≤ 2 then
      let h := digitsVal hs
      let m := digitsVal ms
      if h ≤ 23 && m ≤ 59 then some ⟨h, m⟩ else Option.none
    else Option.none
  | _ => Option.none

/-- A row of the `doctors` table. -/
structure Doctor where
  id : Int
  name : String
  specialization : String
  is_verified : Bool
  deriving DecidableEq, Repr

/-- A row of the `appointments` table.  `created_at` is the storage-assigned
creation stamp, modelled as a monotonically increasing counter. -/
structure Appointment where
  id : Nat
  patient_name : JsonVal
  patient_email : JsonVal
  patient_phone : JsonVal
  doctor_id : Int
  appointment_date : Date
  appointment_time : Time
  reason : JsonVal
  status : String
  notes : String
  created_at : Nat
  updated_at : Nat
  deriving DecidableEq, Repr

/-- The relational store visible to the appointment endpoints.  `nextId` is
the next storage-assigned appointment id (`RETURNING id` of the insert). -/
structure Db where
  doctors : List Doctor
  appointments : List Appointment
  nextId : Nat
  deriving DecidableEq, Repr

/-- The JSON body of a `POST /api/book` request: each key of the dict is
either absent or bound to a scalar. -/
structure BookData where
  patient_name : Option JsonVal
  patient_email : Option JsonVal
  doctor_id : Option JsonVal
  appointment_date : Option JsonVal
  appointment_time : Option JsonVal
  patient_phone : Option JsonVal
  reason : Option JsonVal
  deriving DecidableEq, Repr

/-- Dictionary lookup `data.get(field)` on a booking body. -/
def BookData.get (data : BookData) : String → Option JsonVal
  | "patient_name" => data.patient_name
  | "patient_email" => data.patient_email
  | "doctor_id" => data.doctor_id
  | "appointment_date" => data.appointment_date
  | "appointment_time" => data.appointment_time
  | "patient_phone" => data.patient_phone
  | "reason" => data.reason
  | _ => Option.none

/-- The `required_fields` list of `book_appointment`, in source order. -/
def requiredFields : List String :=
  ["patient_name", "patient_email", "doctor_id", "appointment_date", "appointment_time"]

/-- The first required field whose value is absent or falsy — the field whose
`"<field> is required"` error the validation loop returns. -/
def firstMissingField (data : BookData) : Option String :=
  requiredFields.find? (fun f => !(jsonTruthy (data.get f)))

/-- Which storage step of `book_appointment` raises, if any.  `connect` models
`get_db_connection()` itself raising (caught by the outer handler);
the remaining constructors name the four statements inside the inner `try`. -/
inductive BookFail where
  | none
  | connect
  | doctorQuery
  | conflictQuery
  | insertRow
  | commit
  deriving DecidableEq, Repr

/-- Result of a `POST /api/book` request: HTTP status, error message (if any),
success payload fields, the post-state of the store, and whether a storage
connection was opened / closed during processing. -/
structure BookOut where
  status : Nat
  error : Option String
  appointment_id : Option Nat
  doctor_name : Option String
  db : Db
  connOpened : Bool
  connClosed : Bool
  deriving DecidableEq, Repr

/-- A 400 client-error response issued before any storage connection exists. -/
def bookClientErr (msg : String) (db : Db) : BookOut :=
  { status := 400, error := some msg, appointment_id := Option.none,
    doctor_name := Option.none, db := db, connOpened := false, connClosed := false }

/-- The outer `except` handler of `book_appointment`: a 500 raised before the
connection was acquired. -/
def bookInternalErr (db : Db) : BookOut :=
  { status := 500, error := some "Internal server error", appointment_id := Option.none,
    doctor_name := Option.none, db := db, connOpened := false, connClosed := false }

/-- The inner `except` handler: rollback, log, return the generic storage
error; the `finally` clause still closes the connection. -/
def bookDbErr (db : Db) : BookOut :=
  { status := 500, error := some "Failed to book appointment", appointment_id := Option.none,
    doctor_name := Option.none, db := db, connOpened := true, connClosed := true }

/-- Resolution of the `doctor_id` parameter by the storage layer: integers
pass through, strings are cast to integer (a failed cast raises in the
driver), booleans and nulls cannot be compared with the integer `id` column. -/
def resolveDoctorId : JsonVal → Option Int
  | .int n => some n
  | .str s => strToInt? s
  | _ => Option.none

/-- The row inserted by the `INSERT INTO appointments` statement: explicit
columns from the request, storage defaults for `status` (`pending`), `notes`
and the timestamps. -/
def bookInsertRow (data : BookData) (did : Int) (dObj : Date) (tObj : Time)
    (db : Db) : Appointment :=
  { id := db.nextId
    patient_name := (data.patient_name).getD JsonVal.null
    patient_email := (data.patient_email).getD JsonVal.null
    patient_phone := (data.patient_phone).getD (JsonVal.str "")
    doctor_id := did
    appointment_date := dObj
    appointment_time := tObj
    reason := (data.reason).getD (JsonVal.str "")
    status := "pending"
    notes := ""
    created_at := db.nextId
    updated_at := db.nextId }

/-- Does appointment `a` conflict with a booking for doctor `did` at
(`dObj`, `tObj`)?  Mirrors the `SELECT` with
`status NOT IN ('cancelled', 'completed')`. -/
def conflictsWith (did : Int) (dObj : Date) (tObj : Time) (a : Appointment) : Bool :=
  a.doctor_id == did && a.appointment_date == dObj && a.appointment_time == tObj &&
    !(a.status == "cancelled" || a.status == "completed")

/-- The storage phase of `book_appointment` (everything from
`conn = get_db_connection()` on): doctor lookup, conflict check, insert,
commit, with the inner `try`/`except`/`finally`. -/
def bookStorage (data : BookData) (dv : JsonVal) (dObj : Date) (tObj : Time)
    (db : Db) (fail : BookFail) : BookOut :=
  if fail = BookFail.connect then bookInternalErr db
  else if fail = BookFail.doctorQuery then bookDbErr db
  else
    match resolveDoctorId dv with
    | Option.none => bookDbErr db
    | some did =>
      match db.doctors.find? (fun d => d.id == did && d.is_verified) with
      | Option.none =>
        { status := 404, error := some "Doctor not found or not verified",
          appointment_id := Option.none, doctor_name := Option.none, db := db,
          connOpened := true, connClosed := true }
      | some doctor =>
        if fail = BookFail.conflictQuery then bookDbErr db
        else if db.appointments.any (conflictsWith did dObj tObj) then
          { status := 409, error := some "This time slot is already booked",
            appointment_id := Option.none, doctor_name := Option.none, db := db,
            connOpened := true, connClosed := true }
        else if fail = BookFail.insertRow || fail = BookFail.commit then bookDbErr db
        else
          { status := 200, error := Option.none, appointment_id := some db.nextId,
            doctor_name := some doctor.name,
            db := { db with
                      appointments := db.appointments ++ [bookInsertRow data did dObj tObj db],
                      nextId := db.nextId + 1 },
            connOpened := true, connClosed := true }

/-- The `book_appointment` endpoint (`POST /api/book`): required-field loop,
date/time parsing (a non-string value raises `TypeError`, which the
`except ValueError` clause does not catch, so it reaches the outer handler),
future check, then the storage phase. -/
def book (data : BookData) (now : DateTime) (db : Db) (fail : BookFail) : BookOut :=
  match firstMissingField data with
  | some f => bookClientErr (f ++ " is required") db
  | Option.none =>
    match data.appointment_date with
    | some (JsonVal.str ds) =>
      match parseDate ds with
      | Option.none => bookClientErr "Invalid date or time format" db
      | some dObj =>
        match data.appointment_time with
        | some (JsonVal.str ts) =>
          match parseTime ts with
          | Option.none => bookClientErr "Invalid date or time format" db
          | some tObj =>
            if DateTime.le ⟨dObj, tObj⟩ now then
              bookClientErr "Appointment must be scheduled for a future date and time" db
            else
              match data.doctor_id with
              | some dv => bookStorage data dv dObj tObj db fail
              | Option.none => bookInternalErr db
        | some _ => bookInternalErr db
        | Option.none => bookInternalErr db
    | some _ => bookInternalErr db
    | Option.none => bookInternalErr db

/-- The JSON body of a `PUT /api/appointments/<id>` request. -/
structure UpdateData where
  status : Option JsonVal
  notes : Option String
  deriving DecidableEq, Repr

/-- The status whitelist of `update_appointment`, in source order. -/
def validStatuses : List String :=
  ["pending", "confirmed", "completed", "cancelled"]

/-- The `status not in [...]` check: only a string value occurring in the
whitelist passes (Python `None` or a non-string is never a member). -/
def statusValid : Option JsonVal → Option String
  | some (JsonVal.str s) => if s ∈ validStatuses then some s else Option.none
  | _ => Option.none

/-- Which storage step of `update_appointment` raises, if any. -/
inductive UpdateFail where
  | none
  | connect
  | updateQuery
  | commit
  deriving DecidableEq, Repr

/-- Result of a `PUT /api/appointments/<id>` request. -/
structure UpdateOut where
  status : Nat
  error : Option String
  message : Option String
  db : Db
  connOpened : Bool
  connClosed : Bool
  deriving DecidableEq, Repr

/-- The inner `except` handler of `update_appointment`: rollback plus generic
storage error; `finally` still closes the connection. -/
def updateDbErr (db : Db) : UpdateOut :=
  { status := 500, error := some "Failed to update appointment", message := Option.none,
    db := db, connOpened := true, connClosed := true }

/-- The `update_appointment` endpoint (`PUT /api/appointments/<id>`): status
whitelist check before any connection, then a single `UPDATE ... RETURNING id`
with 404 when no row matched, commit otherwise. -/
def updateAppointment (appointment_id : Nat) (data : UpdateData) (nowTs : Nat)
    (db : Db) (fail : UpdateFail) : UpdateOut :=
  match statusValid data.status with
  | Option.none =>
    { status := 400, error := some "Invalid status", message := Option.none,
      db := db, connOpened := false, connClosed := false }
  | some s =>
    let notes := data.notes.getD ""
    if fail = UpdateFail.connect then
      { status := 500, error := some "Internal server error", message := Option.none,
        db := db, connOpened := false, connClosed := false }
    else if fail = UpdateFail.updateQuery then updateDbErr db
    else if !(db.appointments.any (fun a => a.id == appointment_id)) then
      { status := 404, error := some "Appointment not found", message := Option.none,
        db := db, connOpened := true, connClosed := true }
    else if fail = UpdateFail.commit then updateDbErr db
    else
      { status := 200, error := Option.none, message := some "Appointment updated successfully",
        db := { db with
                  appointments := db.appointments.map (fun a =>
                    if a.id == appointment_id then
                      { a with status := s, notes := notes, updated_at := nowTs }
                    else a) },
        connOpened := true, connClosed := true }

/-- A row of the result set of `get_appointments`: all appointment columns
joined with the doctor's name and specialization. -/
structure ApptRow where
  id : Nat
  patient_name : JsonVal
  patient_email : JsonVal
  patient_phone : JsonVal
  doctor_id : Int
  doctor_name : String
  specialization : String
  appointment_date : Date
  appointment_time : Time
  reason : JsonVal
  status : String
  notes : String
  created_at : Nat
  deriving DecidableEq, Repr

/-- Shape of one joined row (`SELECT a.*, d.name as doctor_name,
d.specialization`). -/
def mkApptRow (a : Appointment) (d : Doctor) : ApptRow :=
  { id := a.id
    patient_name := a.patient_name
    patient_email := a.patient_email
    patient_phone := a.patient_phone
    doctor_id := a.doctor_id
    doctor_name := d.name
    specialization := d.specialization
    appointment_date := a.appointment_date
    appointment_time := a.appointment_time
    reason := a.reason
    status := a.status
    notes := a.notes
    created_at := a.created_at }

/-- Relational semantics of `FROM appointments a JOIN doctors d ON
a.doctor_id = d.id`: one row per matching (appointment, doctor) pair. -/
def joinRows (db : Db) : List ApptRow :=
  db.appointments.flatMap (fun a =>
    (db.doctors.filter (fun d => d.id == a.doctor_id)).map (mkApptRow a))

/-- The dynamically appended `WHERE` conjuncts of `get_appointments`: a filter
is active only when the query parameter is present and nonempty (`if
doctor_id:` / `if status:`); the `doctor_id` text parameter is cast to
integer by the storage layer for the comparison with `a.doctor_id`. -/
def rowKeep (df sf : Option String) (r : ApptRow) : Bool :=
  (match df with
   | Option.none => true
   | some s => if s = "" then true else strToInt? s == some r.doctor_id) &&
  (match sf with
   | Option.none => true
   | some s => if s = "" then true else r.status == s)

/-- An active `doctor_id` filter whose text does not cast to an integer makes
the query itself raise in the storage layer. -/
def dfCastErr (df : Option String) : Bool :=
  match df with
  | Option.none => false
  | some s => s ≠ "" && (strToInt? s).isNone

/-- Ordering relation of `ORDER BY a.appointment_date DESC,
a.appointment_time DESC`: row `r1` may precede row `r2` exactly when `r1`'s
combined date-time is at least `r2`'s. -/
def rowBefore (r1 r2 : ApptRow) : Prop :=
  DateTime.le ⟨r2.appointment_date, r2.appointment_time⟩
    ⟨r1.appointment_date, r1.appointment_time⟩ = true

instance : DecidableRel rowBefore := fun _ _ =>
  inferInstanceAs (Decidable (_ = true))

/-- Which storage step of `get_appointments` raises, if any. -/
inductive ListFail where
  | none
  | connect
  | query
  deriving DecidableEq, Repr

/-- Result of a `GET /api/appointments` request. -/
structure ListOut where
  status : Nat
  error : Option String
  rows : List ApptRow
  connOpened : Bool
  connClosed : Bool
  deriving DecidableEq, Repr

/-- The `get_appointments` endpoint (`GET /api/appointments`).  There is no
`finally` clause in the source: `conn.close()` runs only on the successful
path, so a storage failure after the connection was acquired leaves it open
while the `except` handler returns the generic 500. -/
def getAppointments (df sf : Option String) (db : Db) (fail : ListFail) : ListOut :=
  if fail = ListFail.connect then
    { status := 500, error := some "Failed to retrieve appointments", rows := [],
      connOpened := false, connClosed := false }
  else if fail = ListFail.query || dfCastErr df then
    { status := 500, error := some "Failed to retrieve appointments", rows := [],
      connOpened := true, connClosed := false }
  else
    { status := 200, error := Option.none,
      rows := List.insertionSort rowBefore ((joinRows db).filter (rowKeep df sf)),
      connOpened := true, connClosed := true }

/-- A row of the `chat_history` table. -/
structure ChatTurn where
  session_id : String
  user_message : String
  bot_response : String
  created_at : Nat
  deriving DecidableEq, Repr

/-- The relational store visible to the chat endpoints; `nextCreated` is the
next storage-assigned creation stamp. -/
structure ChatDb where
  history : List ChatTurn
  nextCreated : Nat
  deriving DecidableEq, Repr

/-- Outcome of the `client.models.generate_content` call: either it raises, or
it returns a response whose `.text` may be a string or Python `None`. -/
inductive GenResult where
  | ok (text : Option String)
  | fail
  deriving DecidableEq, Repr

/-- Which step of the chat-history persistence block raises, if any. -/
inductive PersistFail where
  | none
  | connect
  | write
  deriving DecidableEq, Repr

/-- Result of a `POST /api/chat` request.  `session_id` is echoed as the JSON
value the client supplied (or the freshly generated identifier). -/
structure ChatOut where
  status : Nat
  error : Option String
  response : Option String
  session_id : Option JsonVal
  timestamp : Option String
  db : ChatDb
  connOpened : Bool
  connClosed : Bool
  deriving DecidableEq, Repr

/-- The fallback text substituted when `response.text` is `None` or empty
(`response.text or "..."`). -/
def chatFallback : String :=
  "I apologize, but I couldn\x27t generate a response. Please try again."

/-- Python `str.strip()`: drop leading and trailing whitespace. -/
def pyStrip (s : String) : String :=
  String.mk
    (((s.toList.dropWhile Char.isWhitespace).reverse.dropWhile
      Char.isWhitespace).reverse)

/-- The expression `response.text or "..."`: Python `None` and the empty
string are both falsy, so either is replaced by the fallback text. -/
def botResponseOf : Option String → String
  | some s => if s = "" then chatFallback else s
  | Option.none => chatFallback

/-- The `except` handler of `chat`: any exception outside the persistence
block yields this 500. -/
def chatErr (db : ChatDb) : ChatOut :=
  { status := 500, error := some "Failed to process your message. Please try again.",
    response := Option.none, session_id := Option.none, timestamp := Option.none,
    db := db, connOpened := false, connClosed := false }

/-- The `chat` endpoint (`POST /api/chat`).  `freshUuid` stands for the
`str(uuid.uuid4())` default computed for a missing `session_id`; `gen` is the
outcome of the model call and `pfail` the persistence scenario.  The
persistence block has its own `except` that only logs, so a storage failure
there neither changes the response nor closes the connection; a non-string
`session_id` value makes the insert itself raise (parameter adaptation),
which that same handler swallows.  A non-string `message` value makes
`.strip()` raise, which the outer handler turns into the generic 500. -/
def chat (data_message : Option JsonVal) (data_session : Option JsonVal)
    (freshUuid : String) (gen : GenResult) (pfail : PersistFail)
    (db : ChatDb) : ChatOut :=
  match data_message.getD (JsonVal.str "") with
  | JsonVal.str m =>
    let user_message := pyStrip m
    let sid : JsonVal := data_session.getD (JsonVal.str freshUuid)
    if user_message = "" then
      { status := 400, error := some "Message is required", response := Option.none,
        session_id := Option.none, timestamp := Option.none, db := db,
        connOpened := false, connClosed := false }
    else
      match gen with
      | GenResult.fail => chatErr db
      | GenResult.ok t =>
        let bot_response := botResponseOf t
        let saved : ChatDb × Bool × Bool :=
          match pfail with
          | PersistFail.connect => (db, false, false)
          | PersistFail.write => (db, true, false)
          | PersistFail.none =>
            match sid with
            | JsonVal.str s =>
              ({ history := db.history ++ [⟨s, user_message, bot_response, db.nextCreated⟩],
                 nextCreated := db.nextCreated + 1 }, true, true)
            | _ => (db, true, false)
        { status := 200, error := Option.none, response := some bot_response,
          session_id := some sid, timestamp := some "now", db := saved.1,
          connOpened := saved.2.1, connClosed := saved.2.2 }
  | _ => chatErr db

/-- A row of the result set of `get_chat_history`. -/
structure HistRow where
  user_message : String
  bot_response : String
  created_at : Nat
  deriving DecidableEq, Repr

/-- Ordering relation of `ORDER BY created_at ASC`. -/
def histAsc (r1 r2 : HistRow) : Prop :=
  r1.created_at ≤ r2.created_at

instance : DecidableRel histAsc := fun _ _ =>
  inferInstanceAs (Decidable (_ ≤ _))

/-- Which storage step of `get_chat_history` raises, if any. -/
inductive HistFail where
  | none
  | connect
  | query
  deriving DecidableEq, Repr

/-- Result of a `GET /api/chat/history/<session_id>` request. -/
structure HistOut where
  status : Nat
  error : Option String
  rows : List HistRow
  connOpened : Bool
  connClosed : Bool
  deriving DecidableEq, Repr

/-- The `get_chat_history` endpoint.  As in `get_appointments`, there is no
`finally`: the connection is closed only on the successful path. -/
def getChatHistory (session_id : String) (db : ChatDb) (fail : HistFail) : HistOut :=
  if fail = HistFail.connect then
    { status := 500, error := some "Failed to retrieve chat history", rows := [],
      connOpened := false, connClosed := false }
  else if fail = HistFail.query then
    { status := 500, error := some "Failed to retrieve chat history", rows := [],
      connOpened := true, connClosed := false }
  else
    { status := 200, error := Option.none,
      rows := List.insertionSort histAsc
        ((db.history.filter (fun t => t.session_id == session_id)).map
          (fun t => ⟨t.user_message, t.bot_response, t.created_at⟩)),
      connOpened := true, connClosed := true }

/-- The slot of an appointment: the (doctor id, date, time) triple. -/
def slotOf (a : Appointment) : Int × Date × Time :=
  (a.doctor_id, a.appointment_date, a.appointment_time)

/-- An appointment is active when its status is neither `cancelled` nor
`completed` (only active appointments block a slot). -/
def isActive (a : Appointment) : Bool :=
  !(a.status == "cancelled" || a.status == "completed")

/-- The no-double-booking invariant: any two stored active appointments
occupy distinct slots. -/
def ActiveUnique (db : Db) : Prop :=
  db.appointments.Pairwise
    (fun a b => isActive a = true → isActive b = true → slotOf a ≠ slotOf b)

instance : IsTotal ApptRow rowBefore :=
  ⟨fun a b => by
    unfold rowBefore DateTime.le
    simp only [Bool.or_eq_true, Bool.and_eq_true, decide_eq_true_eq, beq_iff_eq]
    omega⟩

instance : IsTrans ApptRow rowBefore :=
  ⟨fun a b c h1 h2 => by
    unfold rowBefore DateTime.le at h1 h2 ⊢
    simp only [Bool.or_eq_true, Bool.and_eq_true, decide_eq_true_eq,
      beq_iff_eq] at h1 h2 ⊢
    omega⟩

instance : IsTotal HistRow histAsc :=
  ⟨fun a b => Nat.le_total a.created_at b.created_at⟩

instance : IsTrans HistRow histAsc :=
  ⟨fun _ _ _ h1 h2 => Nat.le_trans h1 h2⟩

/-- Concrete fixture: a verified doctor. -/
def wDoctor : Doctor :=
  { id := 3, name := "Dr. Smith", specialization := "Cardiology",
    is_verified := true }

/-- Concrete fixture: a stored pending appointment for doctor 3 at
2099-01-01 10:00, carrying pre-existing notes. -/
def wAppt : Appointment :=
  { id := 1, patient_name := JsonVal.str "John Roe",
    patient_email := JsonVal.str "john@x.com",
    patient_phone := JsonVal.str "", doctor_id := 3,
    appointment_date := ⟨2099, 1, 1⟩, appointment_time := ⟨10, 0⟩,
    reason := JsonVal.str "", status := "pending", notes := "old notes",
    created_at := 1, updated_at := 1 }

/-- Concrete fixture: a second, earlier appointment for doctor 3. -/
def wAppt2 : Appointment :=
  { id := 2, patient_name := JsonVal.str "Mary Poe",
    patient_email := JsonVal.str "mary@x.com",
    patient_phone := JsonVal.str "", doctor_id := 3,
    appointment_date := ⟨2098, 5, 2⟩, appointment_time := ⟨9, 30⟩,
    reason := JsonVal.str "checkup", status := "confirmed", notes := "",
    created_at := 2, updated_at := 2 }

/-- Concrete fixture: a store with one doctor and two appointments, listed
in ascending date order (so listing has to reorder them). -/
def wDb : Db :=
  { doctors := [wDoctor], appointments := [wAppt2, wAppt], nextId := 3 }

/-- Concrete fixture: a well-formed booking request for the slot `wAppt`
already occupies. -/
def wBook : BookData :=
  { patient_name := some (JsonVal.str "Jane Doe"),
    patient_email := some (JsonVal.str "jane@x.com"),
    doctor_id := some (JsonVal.int 3),
    appointment_date := some (JsonVal.str "2099-01-01"),
    appointment_time := some (JsonVal.str "10:00"),
    patient_phone := Option.none, reason := Option.none }

/-- Concrete fixture: the same request with a past date. -/
def wBookPast : BookData :=
  { wBook with appointment_date := some (JsonVal.str "2020-01-01") }

/-- Concrete fixture: the same request with a malformed date. -/
def wBookBadDate : BookData :=
  { wBook with appointment_date := some (JsonVal.str "2099-13-01") }

/-- Concrete fixture: the same request with a malformed time. -/
def wBookBadTime : BookData :=
  { wBook with appointment_time := some (JsonVal.str "25:00") }

/-- Concrete fixture: the same request with the email missing. -/
def wBookNoEmail : BookData :=
  { wBook with patient_email := Option.none }

/-- Concrete fixture: the same request with `doctor_id` 0 (present but
falsy). -/
def wBookDoc0 : BookData :=
  { wBook with doctor_id := some (JsonVal.int 0) }

/-- Concrete fixture: the processing moment used by the witnesses. -/
def wNow : DateTime := ⟨⟨2026, 10, 12⟩, ⟨9, 0⟩⟩

/-- Concrete fixture: a valid update body. -/
def wUpd : UpdateData :=
  { status := some (JsonVal.str "confirmed"), notes := some "checked" }

/-- Concrete fixture: an update body with an unknown status. -/
def wUpdBad : UpdateData :=
  { status := some (JsonVal.str "archived"), notes := Option.none }

/-- Concrete fixture: an empty chat store. -/
def wChatDb : ChatDb := { history := [], nextCreated := 0 }

/-- Auxiliary: `find?` returns the first element satisfying the predicate. -/
theorem find?_of_split {α : Type} (p : α → Bool) (l1 l2 : List α) (f : α)
    (h1 : ∀ g ∈ l1, p g = false) (hf : p f = true) :
    List.find? p (l1 ++ f :: l2) = some f := by
  induction l1 with
  | nil => simp [List.find?, hf]
  | cons g l1 ih =>
    have hg : p g = false := h1 g (List.mem_cons_self g l1)
    simp only [List.cons_append, List.find?, hg]
    exact ih (fun x hx => h1 x (List.mem_cons_of_mem g hx))
/-- Auxiliary: a failing required-field check short-circuits `book_appointment`. -/
theorem book_missing_eq (data : BookData) (now : DateTime) (db : Db)
    (fail : BookFail) (f : String) (h : firstMissingField data = some f) :
    book data now db fail = bookClientErr (f ++ " is required") db := by
  unfold book
  simp only [h]

/-- Auxiliary: an unparsable date short-circuits `book_appointment`. -/
theorem book_badDate_eq (data : BookData) (now : DateTime) (db : Db)
    (fail : BookFail) (ds : String)
    (hreq : firstMissingField data = Option.none)
    (hd : data.appointment_date = some (JsonVal.str ds))
    (hpd : parseDate ds = Option.none) :
    book data now db fail = bookClientErr "Invalid date or time format" db := by
  unfold book
  simp only [hreq, hd, hpd]

/-- Auxiliary: an unparsable time short-circuits `book_appointment`. -/
theorem book_badTime_eq (data : BookData) (now : DateTime) (db : Db)
    (fail : BookFail) (ds ts : String) (dObj : Date)
    (hreq : firstMissingField data = Option.none)
    (hd : data.appointment_date = some (JsonVal.str ds))
    (hpd : parseDate ds = some dObj)
    (ht : data.appointment_time = some (JsonVal.str ts))
    (hpt : parseTime ts = Option.none) :
    book data now db fail = bookClientErr "Invalid date or time format" db := by
  unfold book
  simp only [hreq, hd, hpd, ht, hpt]

/-- Auxiliary: a non-future date-time short-circuits `book_appointment`. -/
theorem book_past_eq (data : BookData) (now : DateTime) (db : Db)
    (fail : BookFail) (ds ts : String) (dObj : Date) (tObj : Time)
    (hreq : firstMissingField data = Option.none)
    (hd : data.appointment_date = some (JsonVal.str ds))
    (hpd : parseDate ds = some dObj)
    (ht : data.appointment_time = some (JsonVal.str ts))
    (hpt : parseTime ts = some tObj)
    (hpast : DateTime.le ⟨dObj, tObj⟩ now = true) :
    book data now db fail =
      bookClientErr "Appointment must be scheduled for a future date and time" db := by
  unfold book
  simp only [hreq, hd, hpd, ht, hpt]
  simp [hpast]

/-- Auxiliary: a booking for a slot held by an active appointment returns 409
and leaves the store untouched. -/
theorem book_conflict_eq (data : BookData) (now : DateTime) (db : Db)
    (ds ts : String) (dObj : Date) (tObj : Time) (dv : JsonVal) (did : Int)
    (doctor : Doctor) (a : Appointment)
    (hreq : firstMissingField data = Option.none)
    (hd : data.appointment_date = some (JsonVal.str ds))
    (hpd : parseDate ds = some dObj)
    (ht : data.appointment_time = some (JsonVal.str ts))
    (hpt : parseTime ts = some tObj)
    (hfut : DateTime.le ⟨dObj, tObj⟩ now = false)
    (hdv : data.doctor_id = some dv)
    (hdid : resolveDoctorId dv = some did)
    (hdoc : db.doctors.find? (fun d => d.id == did && d.is_verified) = some doctor)
    (ha : a ∈ db.appointments)
    (hc : conflictsWith did dObj tObj a = true) :
    book data now db BookFail.none =
      { status := 409, error := some "This time slot is already booked",
        appointment_id := Option.none, doctor_name := Option.none, db := db,
        connOpened := true, connClosed := true } := by
  have hany : db.appointments.any (conflictsWith did dObj tObj) = true :=
    List.any_eq_true.mpr ⟨a, ha, hc⟩
  unfold book
  simp only [hreq, hd, hpd, ht, hpt, hdv]
  unfold bookStorage
  simp [hfut, hdid, hdoc, hany]

/-- Auxiliary: inserting into a conflict-free slot preserves the
no-double-booking invariant. -/
theorem activeUnique_insert (db : Db) (data : BookData) (did : Int)
    (dObj : Date) (tObj : Time) (h : ActiveUnique db)
    (hnc : db.appointments.any (conflictsWith did dObj tObj) = false) :
    ActiveUnique
      { db with appointments := db.appointments ++ [bookInsertRow data did dObj tObj db],
                nextId := db.nextId + 1 } := by
  unfold ActiveUnique at h ⊢
  simp only []
  rw [List.pairwise_append]
  refine ⟨h, List.pairwise_singleton _ _, ?_⟩
  intro a ha b hb
  simp only [List.mem_singleton] at hb
  subst hb
  intro hacta hactb heq
  have hc : conflictsWith did dObj tObj a = true := by
    simp only [slotOf, bookInsertRow, Prod.mk.injEq] at heq
    obtain ⟨h1, h2, h3⟩ := heq
    simp only [conflictsWith, h1, h2, h3, beq_self_eq_true, Bool.and_eq_true,
      Bool.true_and]
    simpa [isActive] using hacta
  have := List.any_eq_true.mpr ⟨a, ha, hc⟩
  rw [hnc] at this
  exact Bool.false_ne_true this

/-- Auxiliary: every path through `book_appointment` either leaves the store
unchanged or appends one conflict-free row, so the invariant is preserved. -/
theorem book_preserves_activeUnique (data : BookData) (now : DateTime)
    (db : Db) (fail : BookFail) (h : ActiveUnique db) :
    ActiveUnique (book data now db fail).db := by
  unfold book bookStorage
  repeat' split
  any_goals exact h
  rename_i hnc hfl
  exact activeUnique_insert db data _ _ _ h (by simpa using hnc)

/-- Auxiliary: a successful update rewrites exactly the matching rows. -/
theorem update_success_eq (appointment_id : Nat) (data : UpdateData)
    (nowTs : Nat) (db : Db) (s : String)
    (hsv : statusValid data.status = some s)
    (hany : db.appointments.any (fun a => a.id == appointment_id) = true) :
    updateAppointment appointment_id data nowTs db UpdateFail.none =
      { status := 200, error := Option.none,
        message := some "Appointment updated successfully",
        db := { db with appointments := db.appointments.map (fun a =>
                  if a.id == appointment_id then
                    { a with status := s, notes := data.notes.getD "",
                             updated_at := nowTs }
                  else a) },
        connOpened := true, connClosed := true } := by
  unfold updateAppointment
  simp [hsv, hany]

/-- Auxiliary: the successful branch of `get_appointments`. -/
theorem getAppointments_success_eq (df sf : Option String) (db : Db)
    (hdf : dfCastErr df = false) :
    getAppointments df sf db ListFail.none =
      { status := 200, error := Option.none,
        rows := List.insertionSort rowBefore ((joinRows db).filter (rowKeep df sf)),
        connOpened := true, connClosed := true } := by
  unfold getAppointments
  simp [hdf]

/-- Auxiliary: the `WHERE` conjuncts hold of a joined row exactly when the
underlying appointment passes the supplied filters. -/
theorem rowKeep_mkApptRow_iff (df sf : Option String) (a : Appointment)
    (d : Doctor) :
    rowKeep df sf (mkApptRow a d) = true ↔
      (∀ s, df = some s → s ≠ "" → strToInt? s = some a.doctor_id) ∧
      (∀ s, sf = some s → s ≠ "" → a.status = s) := by
  rcases df with _ | s <;> rcases sf with _ | t <;>
    simp only [rowKeep, mkApptRow, Bool.and_eq_true]
  · simp
  · by_cases ht : t = "" <;> simp [ht]
  · by_cases hs : s = "" <;> simp [hs]
  · by_cases hs : s = "" <;> by_cases ht : t = "" <;> simp [hs, ht]

/-- C1: a booking request targeting a (doctor id, date, time) slot already
held by a stored appointment whose status is neither `cancelled` nor
`completed` is answered with 409 "This time slot is already booked" and
inserts no row; and every path through Book preserves the invariant that at
most one active appointment exists per slot. -/
theorem book_no_double_booking :
    (∀ (data : BookData) (now : DateTime) (db : Db) (ds ts : String)
       (dObj : Date) (tObj : Time) (dv : JsonVal) (did : Int) (doctor : Doctor)
       (a : Appointment),
       firstMissingField data = Option.none →
       data.appointment_date = some (JsonVal.str ds) →
       parseDate ds = some dObj →
       data.appointment_time = some (JsonVal.str ts) →
       parseTime ts = some tObj →
       DateTime.le ⟨dObj, tObj⟩ now = false →
       data.doctor_id = some dv →
       resolveDoctorId dv = some did →
       db.doctors.find? (fun d => d.id == did && d.is_verified) = some doctor →
       a ∈ db.appointments →
       conflictsWith did dObj tObj a = true →
       book data now db BookFail.none =
         { status := 409, error := some "This time slot is already booked",
           appointment_id := Option.none, doctor_name := Option.none, db := db,
           connOpened := true, connClosed := true }) ∧
    (∀ (data : BookData) (now : DateTime) (db : Db) (fail : BookFail),
       ActiveUnique db → ActiveUnique (book data now db fail).db) := by
  constructor
  · intro data now db ds ts dObj tObj dv did doctor a hreq hd hpd ht hpt hfut
      hdv hdid hdoc ha hc
    exact book_conflict_eq data now db ds ts dObj tObj dv did doctor a hreq hd
      hpd ht hpt hfut hdv hdid hdoc ha hc
  · exact book_preserves_activeUnique

/-- C2: a well-formed booking request whose combined date and time is not
strictly in the future is answered with 400 "Appointment must be scheduled
for a future date and time" — whatever the store holds and whatever the
storage layer would do — without opening a storage connection. -/
theorem book_rejects_past (data : BookData) (now : DateTime) (db : Db)
    (fail : BookFail) (ds ts : String) (dObj : Date) (tObj : Time)
    (hreq : firstMissingField data = Option.none)
    (hd : data.appointment_date = some (JsonVal.str ds))
    (hpd : parseDate ds = some dObj)
    (ht : data.appointment_time = some (JsonVal.str ts))
    (hpt : parseTime ts = some tObj)
    (hpast : DateTime.le ⟨dObj, tObj⟩ now = true) :
    book data now db fail =
      { status := 400,
        error := some "Appointment must be scheduled for a future date and time",
        appointment_id := Option.none, doctor_name := Option.none, db := db,
        connOpened := false, connClosed := false } :=
  book_past_eq data now db fail ds ts dObj tObj hreq hd hpd ht hpt hpast

/-- C3: the booking checks run in the fixed order required-fields, date/time
format, future time; the first violated check alone determines the 400
response, and each of the three failures is answered before any storage
connection is opened. -/
theorem book_validation_order :
    (∀ (data : BookData) (now : DateTime) (db : Db) (fail : BookFail)
       (l1 l2 : List String) (f : String),
       requiredFields = l1 ++ f :: l2 →
       (∀ g ∈ l1, jsonTruthy (data.get g) = true) →
       jsonTruthy (data.get f) = false →
       book data now db fail =
         { status := 400, error := some (f ++ " is required"),
           appointment_id := Option.none, doctor_name := Option.none, db := db,
           connOpened := false, connClosed := false }) ∧
    (∀ (data : BookData) (now : DateTime) (db : Db) (fail : BookFail)
       (ds : String),
       firstMissingField data = Option.none →
       data.appointment_date = some (JsonVal.str ds) →
       parseDate ds = Option.none →
       book data now db fail =
         { status := 400, error := some "Invalid date or time format",
           appointment_id := Option.none, doctor_name := Option.none, db := db,
           connOpened := false, connClosed := false }) ∧
    (∀ (data : BookData) (now : DateTime) (db : Db) (fail : BookFail)
       (ds ts : String) (dObj : Date),
       firstMissingField data = Option.none →
       data.appointment_date = some (JsonVal.str ds) →
       parseDate ds = some dObj →
       data.appointment_time = some (JsonVal.str ts) →
       parseTime ts = Option.none →
       book data now db fail =
         { status := 400, error := some "Invalid date or time format",
           appointment_id := Option.none, doctor_name := Option.none, db := db,
           connOpened := false, connClosed := false }) ∧
    (∀ (data : BookData) (now : DateTime) (db : Db) (fail : BookFail)
       (ds ts : String) (dObj : Date) (tObj : Time),
       firstMissingField data = Option.none →
       data.appointment_date = some (JsonVal.str ds) →
       parseDate ds = some dObj →
       data.appointment_time = some (JsonVal.str ts) →
       parseTime ts = some tObj →
       DateTime.le ⟨dObj, tObj⟩ now = true →
       book data now db fail =
         { status := 400,
           error := some "Appointment must be scheduled for a future date and time",
           appointment_id := Option.none, doctor_name := Option.none, db := db,
           connOpened := false, connClosed := false }) := by
  refine ⟨?_, ?_, ?_, ?_⟩
  · intro data now db fail l1 l2 f hsplit htr hf
    have hfm : firstMissingField data = some f := by
      unfold firstMissingField
      rw [hsplit]
      exact find?_of_split _ l1 l2 f (fun g hg => by simp [htr g hg])
        (by simp [hf])
    exact book_missing_eq data now db fail f hfm
  · intro data now db fail ds hreq hd hpd
    exact book_badDate_eq data now db fail ds hreq hd hpd
  · intro data now db fail ds ts dObj hreq hd hpd ht hpt
    exact book_badTime_eq data now db fail ds ts dObj hreq hd hpd ht hpt
  · intro data now db fail ds ts dObj tObj hreq hd hpd ht hpt hpast
    exact book_past_eq data now db fail ds ts dObj tObj hreq hd hpd ht hpt hpast

/-- C5: an update whose status value is not one of pending / confirmed /
completed / cancelled — including a missing or non-string status — is
answered with 400 "Invalid status", leaves the store unmodified, and opens no
storage connection. -/
theorem update_invalid_status (appointment_id : Nat) (data : UpdateData)
    (nowTs : Nat) (db : Db) (fail : UpdateFail)
    (h : ∀ s : String, data.status = some (JsonVal.str s) → s ∉ validStatuses) :
    updateAppointment appointment_id data nowTs db fail =
      { status := 400, error := some "Invalid status", message := Option.none,
        db := db, connOpened := false, connClosed := false } := by
  have hsn : statusValid data.status = Option.none := by
    cases hd : data.status with
    | none => rfl
    | some v =>
      cases v with
      | str s =>
        have hns := h s hd
        simp [statusValid, hns]
      | int n => rfl
      | bool b => rfl
      | null => rfl
  unfold updateAppointment
  simp [hsn]

/-- C8: a required booking field that is present but falsy — the integer 0,
`False`, or an empty string — is treated as missing: the loop answers 400
with "<field> is required" for the first absent-or-falsy field; in
particular a request with `doctor_id` 0 is rejected by the field check, so
it never reaches the doctor lookup and never produces the 404 response. -/
theorem book_falsy_field_is_missing :
    (∀ (data : BookData) (now : DateTime) (db : Db) (fail : BookFail)
       (l1 l2 : List String) (f : String) (v : JsonVal),
       requiredFields = l1 ++ f :: l2 →
       (∀ g ∈ l1, jsonTruthy (data.get g) = true) →
       data.get f = some v →
       v.truthy = false →
       book data now db fail =
         { status := 400, error := some (f ++ " is required"),
           appointment_id := Option.none, doctor_name := Option.none, db := db,
           connOpened := false, connClosed := false }) ∧
    (∀ (data : BookData) (now : DateTime) (db : Db) (fail : BookFail),
       data.doctor_id = some (JsonVal.int 0) →
       ∃ f, book data now db fail =
         { status := 400, error := some (f ++ " is required"),
           appointment_id := Option.none, doctor_name := Option.none, db := db,
           connOpened := false, connClosed := false }) := by
  constructor
  · intro data now db fail l1 l2 f v hsplit htr hv hfalsy
    have hfm : firstMissingField data = some f := by
      unfold firstMissingField
      rw [hsplit]
      exact find?_of_split _ l1 l2 f (fun g hg => by simp [htr g hg])
        (by simp [jsonTruthy, hv, hfalsy])
    exact book_missing_eq data now db fail f hfm
  · intro data now db fail h0
    have h3 : jsonTruthy (data.get "doctor_id") = false := by
      simp [BookData.get, h0, jsonTruthy, JsonVal.truthy]
    by_cases h1 : jsonTruthy (data.get "patient_name")
    · by_cases h2 : jsonTruthy (data.get "patient_email")
      · exact ⟨"doctor_id", book_missing_eq data now db fail _ (by
          unfold firstMissingField requiredFields
          simp [List.find?, h1, h2, h3])⟩
      · exact ⟨"patient_email", book_missing_eq data now db fail _ (by
          unfold firstMissingField requiredFields
          simp [List.find?, h1, h2])⟩
    · exact ⟨"patient_name", book_missing_eq data now db fail _ (by
        unfold firstMissingField requiredFields
        simp [List.find?, h1])⟩

/-- C9: a valid update matching an existing appointment id overwrites the
row's notes with the supplied value — the empty string when notes are
omitted, so existing notes are never preserved — and stamps the update
time; all other rows are untouched. -/
theorem update_overwrites_notes (appointment_id : Nat) (data : UpdateData)
    (nowTs : Nat) (db : Db) (s : String)
    (hs : data.status = some (JsonVal.str s)) (hmem : s ∈ validStatuses)
    (hex : ∃ a ∈ db.appointments, a.id = appointment_id) :
    (updateAppointment appointment_id data nowTs db UpdateFail.none).status = 200 ∧
    (updateAppointment appointment_id data nowTs db UpdateFail.none).db.appointments =
      db.appointments.map (fun a =>
        if a.id == appointment_id then
          { a with status := s, notes := data.notes.getD "", updated_at := nowTs }
        else a) := by
  have hsv : statusValid data.status = some s := by simp [statusValid, hs, hmem]
  obtain ⟨a, ha, haid⟩ := hex
  have hany : db.appointments.any (fun x => x.id == appointment_id) = true :=
    List.any_eq_true.mpr ⟨a, ha, by simp [haid]⟩
  rw [update_success_eq appointment_id data nowTs db s hsv hany]
  exact ⟨rfl, rfl⟩

/-- C6: with the doctor-id and status filters supplied (either may be
absent, imposing no restriction), List succeeds and returns exactly the
joined rows of the appointments passing both filters, sorted by appointment
date and then time, both descending. -/
theorem list_filter_and_order (df sf : Option String) (db : Db)
    (hdf : dfCastErr df = false) :
    (getAppointments df sf db ListFail.none).status = 200 ∧
    (∀ r, r ∈ (getAppointments df sf db ListFail.none).rows ↔
      ∃ a ∈ db.appointments, ∃ d ∈ db.doctors,
        d.id = a.doctor_id ∧
        (∀ s, df = some s → s ≠ "" → strToInt? s = some a.doctor_id) ∧
        (∀ s, sf = some s → s ≠ "" → a.status = s) ∧
        r = mkApptRow a d) ∧
    List.Sorted rowBefore (getAppointments df sf db ListFail.none).rows := by
  rw [getAppointments_success_eq df sf db hdf]
  refine ⟨rfl, ?_, List.sorted_insertionSort rowBefore _⟩
  intro r
  rw [List.mem_insertionSort, List.mem_filter]
  unfold joinRows
  simp only [List.mem_flatMap, List.mem_map, List.mem_filter]
  constructor
  · rintro ⟨⟨a, ha, d, ⟨hd, hid⟩, rfl⟩, hkeep⟩
    obtain ⟨h1, h2⟩ := (rowKeep_mkApptRow_iff df sf a d).mp hkeep
    exact ⟨a, ha, d, hd, beq_iff_eq.mp hid, h1, h2, rfl⟩
  · rintro ⟨a, ha, d, hd, hid, h1, h2, rfl⟩
    exact ⟨⟨a, ha, d, ⟨hd, beq_iff_eq.mpr hid⟩, rfl⟩,
      (rowKeep_mkApptRow_iff df sf a d).mpr ⟨h1, h2⟩⟩

/-- Auxiliary: `book_appointment` closes its connection exactly when it
opened one (the inner `finally` guarantees release). -/
theorem book_conn_eq (data : BookData) (now : DateTime) (db : Db)
    (fail : BookFail) :
    (book data now db fail).connClosed = (book data now db fail).connOpened := by
  unfold book bookStorage
  repeat' split
  all_goals rfl

/-- Auxiliary: `update_appointment` closes its connection exactly when it
opened one. -/
theorem update_conn_eq (appointment_id : Nat) (data : UpdateData)
    (nowTs : Nat) (db : Db) (fail : UpdateFail) :
    (updateAppointment appointment_id data nowTs db fail).connClosed =
      (updateAppointment appointment_id data nowTs db fail).connOpened := by
  unfold updateAppointment
  repeat' split
  all_goals rfl

/-- Auxiliary: `get_appointments` closes its connection exactly on success. -/
theorem list_conn_iff (df sf : Option String) (db : Db) (fail : ListFail) :
    ((getAppointments df sf db fail).connClosed = true ↔
      (getAppointments df sf db fail).connOpened = true ∧
      (getAppointments df sf db fail).status = 200) := by
  unfold getAppointments
  repeat' split
  all_goals simp

/-- Auxiliary: `get_chat_history` closes its connection exactly on success. -/
theorem hist_conn_iff (session_id : String) (db : ChatDb) (fail : HistFail) :
    ((getChatHistory session_id db fail).connClosed = true ↔
      (getChatHistory session_id db fail).connOpened = true ∧
      (getChatHistory session_id db fail).status = 200) := by
  unfold getChatHistory
  repeat' split
  all_goals simp

/-- Auxiliary: a failing chat-history write leaves the chat connection open
(the persistence `except` only logs and never reaches `conn.close()`). -/
theorem chat_write_leak (dm ds : Option JsonVal) (freshUuid : String)
    (t : Option String) (db : ChatDb) (m : String)
    (hm : dm = some (JsonVal.str m)) (hne : pyStrip m ≠ "") :
    (chat dm ds freshUuid (GenResult.ok t) PersistFail.write db).connOpened = true ∧
    (chat dm ds freshUuid (GenResult.ok t) PersistFail.write db).connClosed = false := by
  subst hm
  unfold chat
  simp [hne]

/-- C4 counterexample: a storage failure inside the `get_appointments` query
leaves the acquired connection open — there is no `finally` clause in that
endpoint, so the claimed guaranteed release is violated. -/
theorem getAppointments_leaks_on_query_error :
    (getAppointments Option.none Option.none
        { doctors := [], appointments := [], nextId := 1 }
        ListFail.query).connOpened = true ∧
    (getAppointments Option.none Option.none
        { doctors := [], appointments := [], nextId := 1 }
        ListFail.query).connClosed = false := by
  constructor <;> rfl

/-- C4 (amended): Book and Update release their storage connection on every
exit path, but List and Get History release it only when the request
succeeds, and the chat persistence block leaves it open when the write
fails — a storage error after acquisition in those three places leaks the
connection. -/
theorem connection_release_policy :
    (∀ (data : BookData) (now : DateTime) (db : Db) (fail : BookFail),
      (book data now db fail).connClosed = (book data now db fail).connOpened) ∧
    (∀ (appointment_id : Nat) (data : UpdateData) (nowTs : Nat) (db : Db)
       (fail : UpdateFail),
      (updateAppointment appointment_id data nowTs db fail).connClosed =
        (updateAppointment appointment_id data nowTs db fail).connOpened) ∧
    (∀ (df sf : Option String) (db : Db) (fail : ListFail),
      ((getAppointments df sf db fail).connClosed = true ↔
        (getAppointments df sf db fail).connOpened = true ∧
        (getAppointments df sf db fail).status = 200)) ∧
    (∀ (session_id : String) (db : ChatDb) (fail : HistFail),
      ((getChatHistory session_id db fail).connClosed = true ↔
        (getChatHistory session_id db fail).connOpened = true ∧
        (getChatHistory session_id db fail).status = 200)) ∧
    (∀ (dm ds : Option JsonVal) (freshUuid : String) (t : Option String)
       (db : ChatDb) (m : String),
      dm = some (JsonVal.str m) → pyStrip m ≠ "" →
      (chat dm ds freshUuid (GenResult.ok t) PersistFail.write db).connOpened = true ∧
      (chat dm ds freshUuid (GenResult.ok t) PersistFail.write db).connClosed = false) :=
  ⟨book_conn_eq, update_conn_eq, list_conn_iff, hist_conn_iff, chat_write_leak⟩

/-- C7: when the model call returns a response, chat answers 200 with the
generated text and the session identifier whatever the persistence outcome —
in particular when storing the ChatTurn fails; only a failing model call
produces the 500 "Failed to process your message. Please try again.". -/
theorem chat_persistence_nonfatal :
    (∀ (dm ds : Option JsonVal) (freshUuid : String) (t : Option String)
       (pfail : PersistFail) (db : ChatDb) (m : String),
       dm = some (JsonVal.str m) → pyStrip m ≠ "" →
       (chat dm ds freshUuid (GenResult.ok t) pfail db).status = 200 ∧
       (chat dm ds freshUuid (GenResult.ok t) pfail db).response =
         some (botResponseOf t) ∧
       (chat dm ds freshUuid (GenResult.ok t) pfail db).session_id =
         some (ds.getD (JsonVal.str freshUuid)) ∧
       (chat dm ds freshUuid (GenResult.ok t) pfail db).error = Option.none) ∧
    (∀ (dm ds : Option JsonVal) (freshUuid : String) (pfail : PersistFail)
       (db : ChatDb) (m : String),
       dm = some (JsonVal.str m) → pyStrip m ≠ "" →
       chat dm ds freshUuid GenResult.fail pfail db =
         { status := 500,
           error := some "Failed to process your message. Please try again.",
           response := Option.none, session_id := Option.none,
           timestamp := Option.none, db := db,
           connOpened := false, connClosed := false }) := by
  constructor
  · intro dm ds freshUuid t pfail db m hm hne
    subst hm
    unfold chat
    simp [hne]
  · intro dm ds freshUuid pfail db m hm hne
    subst hm
    unfold chat
    simp [hne, chatErr]

/-- C10: every 200 response of chat carries the constant string "now" in its
timestamp field, not an actual time value. -/
theorem chat_timestamp_constant (dm ds : Option JsonVal) (freshUuid : String)
    (gen : GenResult) (pfail : PersistFail) (db : ChatDb)
    (h : (chat dm ds freshUuid gen pfail db).status = 200) :
    (chat dm ds freshUuid gen pfail db).timestamp = some "now" := by
  rcases dm with _ | v
  · simp [chat, chatErr, (by decide : pyStrip "" = "")] at h
  · cases v with
    | str m =>
      by_cases hne : pyStrip m = ""
      · simp [chat, hne] at h
      · cases gen with
        | ok t => simp [chat, hne]
        | fail => simp [chat, hne, chatErr] at h
    | int n => simp [chat, chatErr] at h
    | bool b => simp [chat, chatErr] at h
    | null => simp [chat, chatErr] at h

/-- C1 witness: re-booking the slot held by the stored pending appointment is
refused with 409, and the store satisfies the invariant afterwards. -/
theorem book_no_double_booking_witness :
    book wBook wNow wDb BookFail.none =
      { status := 409, error := some "This time slot is already booked",
        appointment_id := Option.none, doctor_name := Option.none, db := wDb,
        connOpened := true, connClosed := true } ∧
    ActiveUnique (book wBook wNow wDb BookFail.none).db :=
  ⟨book_no_double_booking.1 wBook wNow wDb "2099-01-01" "10:00" ⟨2099, 1, 1⟩
      ⟨10, 0⟩ (JsonVal.int 3) 3 wDoctor wAppt (by decide) rfl (by decide) rfl
      (by decide) (by decide) rfl rfl (by decide) (by decide) (by decide),
   book_no_double_booking.2 wBook wNow wDb BookFail.none
      (by unfold ActiveUnique; decide)⟩

/-- C2 witness: the request dated 2020-01-01 10:00 is rejected with the
future-time error at the fixed processing moment. -/
theorem book_rejects_past_witness :
    book wBookPast wNow wDb BookFail.none =
      { status := 400,
        error := some "Appointment must be scheduled for a future date and time",
        appointment_id := Option.none, doctor_name := Option.none, db := wDb,
        connOpened := false, connClosed := false } :=
  book_rejects_past wBookPast wNow wDb BookFail.none "2020-01-01" "10:00"
    ⟨2020, 1, 1⟩ ⟨10, 0⟩ (by decide) rfl (by decide) rfl (by decide) (by decide)

/-- C3 witness: one instance of each validation stage — missing email,
malformed date, malformed time, past date-time. -/
theorem book_validation_order_witness :
    book wBookNoEmail wNow wDb BookFail.none =
      { status := 400, error := some ("patient_email" ++ " is required"),
        appointment_id := Option.none, doctor_name := Option.none, db := wDb,
        connOpened := false, connClosed := false } ∧
    book wBookBadDate wNow wDb BookFail.none =
      { status := 400, error := some "Invalid date or time format",
        appointment_id := Option.none, doctor_name := Option.none, db := wDb,
        connOpened := false, connClosed := false } ∧
    book wBookBadTime wNow wDb BookFail.none =
      { status := 400, error := some "Invalid date or time format",
        appointment_id := Option.none, doctor_name := Option.none, db := wDb,
        connOpened := false, connClosed := false } ∧
    book wBookPast wNow wDb BookFail.none =
      { status := 400,
        error := some "Appointment must be scheduled for a future date and time",
        appointment_id := Option.none, doctor_name := Option.none, db := wDb,
        connOpened := false, connClosed := false } :=
  ⟨book_validation_order.1 wBookNoEmail wNow wDb BookFail.none ["patient_name"]
      ["doctor_id", "appointment_date", "appointment_time"] "patient_email"
      rfl (by decide) (by decide),
   book_validation_order.2.1 wBookBadDate wNow wDb BookFail.none "2099-13-01"
      (by decide) rfl (by decide),
   book_validation_order.2.2.1 wBookBadTime wNow wDb BookFail.none "2099-01-01"
      "25:00" ⟨2099, 1, 1⟩ (by decide) rfl (by decide) rfl (by decide),
   book_validation_order.2.2.2 wBookPast wNow wDb BookFail.none "2020-01-01"
      "10:00" ⟨2020, 1, 1⟩ ⟨10, 0⟩ (by decide) rfl (by decide) rfl (by decide)
      (by decide)⟩

/-- C4 witness: one instance of each release rule — a failing Book doctor
query, a failing Update query, a failing List query, a failing history
query, and a failing chat-history write. -/
theorem connection_release_policy_witness :
    (book wBook wNow wDb BookFail.doctorQuery).connClosed =
      (book wBook wNow wDb BookFail.doctorQuery).connOpened ∧
    (updateAppointment 1 wUpd 5 wDb UpdateFail.updateQuery).connClosed =
      (updateAppointment 1 wUpd 5 wDb UpdateFail.updateQuery).connOpened ∧
    ((getAppointments Option.none Option.none wDb ListFail.query).connClosed = true ↔
      (getAppointments Option.none Option.none wDb ListFail.query).connOpened = true ∧
      (getAppointments Option.none Option.none wDb ListFail.query).status = 200) ∧
    ((getChatHistory "sess-1" wChatDb HistFail.query).connClosed = true ↔
      (getChatHistory "sess-1" wChatDb HistFail.query).connOpened = true ∧
      (getChatHistory "sess-1" wChatDb HistFail.query).status = 200) ∧
    ((chat (some (JsonVal.str "hi")) Option.none "u-1" (GenResult.ok (some "ok"))
        PersistFail.write wChatDb).connOpened = true ∧
     (chat (some (JsonVal.str "hi")) Option.none "u-1" (GenResult.ok (some "ok"))
        PersistFail.write wChatDb).connClosed = false) :=
  ⟨connection_release_policy.1 wBook wNow wDb BookFail.doctorQuery,
   connection_release_policy.2.1 1 wUpd 5 wDb UpdateFail.updateQuery,
   connection_release_policy.2.2.1 Option.none Option.none wDb ListFail.query,
   connection_release_policy.2.2.2.1 "sess-1" wChatDb HistFail.query,
   connection_release_policy.2.2.2.2 (some (JsonVal.str "hi")) Option.none
     "u-1" (some "ok") wChatDb "hi" rfl (by decide)⟩

/-- C5 witness: the unknown status "archived" is rejected with 400 and the
store and connection are untouched. -/
theorem update_invalid_status_witness :
    updateAppointment 1 wUpdBad 5 wDb UpdateFail.none =
      { status := 400, error := some "Invalid status", message := Option.none,
        db := wDb, connOpened := false, connClosed := false } :=
  update_invalid_status 1 wUpdBad 5 wDb UpdateFail.none
    (fun s hs => by
      simp only [wUpdBad, Option.some.injEq, JsonVal.str.injEq] at hs
      subst hs
      decide)

/-- C6 witness: listing with the doctor filter "3" over the two-appointment
store is characterised by the filter predicate and is sorted descending. -/
theorem list_filter_and_order_witness :
    (getAppointments (some "3") Option.none wDb ListFail.none).status = 200 ∧
    (∀ r, r ∈ (getAppointments (some "3") Option.none wDb ListFail.none).rows ↔
      ∃ a ∈ wDb.appointments, ∃ d ∈ wDb.doctors,
        d.id = a.doctor_id ∧
        (∀ s, (some "3" : Option String) = some s → s ≠ "" →
          strToInt? s = some a.doctor_id) ∧
        (∀ s, (Option.none : Option String) = some s → s ≠ "" →
          a.status = s) ∧
        r = mkApptRow a d) ∧
    List.Sorted rowBefore
      (getAppointments (some "3") Option.none wDb ListFail.none).rows :=
  list_filter_and_order (some "3") Option.none wDb (by decide)

/-- C7 witness: with a failing history write the chat still answers 200 with
the generated text; a failing model call yields the 500. -/
theorem chat_persistence_nonfatal_witness :
    ((chat (some (JsonVal.str "What is flu?")) (some (JsonVal.str "sess-1"))
        "u-1" (GenResult.ok (some "Rest and fluids.")) PersistFail.write
        wChatDb).status = 200 ∧
     (chat (some (JsonVal.str "What is flu?")) (some (JsonVal.str "sess-1"))
        "u-1" (GenResult.ok (some "Rest and fluids.")) PersistFail.write
        wChatDb).response = some (botResponseOf (some "Rest and fluids.")) ∧
     (chat (some (JsonVal.str "What is flu?")) (some (JsonVal.str "sess-1"))
        "u-1" (GenResult.ok (some "Rest and fluids.")) PersistFail.write
        wChatDb).session_id =
       some ((some (JsonVal.str "sess-1")).getD (JsonVal.str "u-1")) ∧
     (chat (some (JsonVal.str "What is flu?")) (some (JsonVal.str "sess-1"))
        "u-1" (GenResult.ok (some "Rest and fluids.")) PersistFail.write
        wChatDb).error = Option.none) ∧
    chat (some (JsonVal.str "What is flu?")) (some (JsonVal.str "sess-1"))
        "u-1" GenResult.fail PersistFail.none wChatDb =
      { status := 500,
        error := some "Failed to process your message. Please try again.",
        response := Option.none, session_id := Option.none,
        timestamp := Option.none, db := wChatDb,
        connOpened := false, connClosed := false } :=
  ⟨chat_persistence_nonfatal.1 (some (JsonVal.str "What is flu?"))
      (some (JsonVal.str "sess-1")) "u-1" (some "Rest and fluids.")
      PersistFail.write wChatDb "What is flu?" rfl (by decide),
   chat_persistence_nonfatal.2 (some (JsonVal.str "What is flu?"))
      (some (JsonVal.str "sess-1")) "u-1" PersistFail.none wChatDb
      "What is flu?" rfl (by decide)⟩

/-- C8 witness: the request with `doctor_id` 0 is rejected by the
required-field loop with "doctor_id is required". -/
theorem book_falsy_field_is_missing_witness :
    book wBookDoc0 wNow wDb BookFail.none =
      { status := 400, error := some ("doctor_id" ++ " is required"),
        appointment_id := Option.none, doctor_name := Option.none, db := wDb,
        connOpened := false, connClosed := false } ∧
    ∃ f, book wBookDoc0 wNow wDb BookFail.none =
      { status := 400, error := some (f ++ " is required"),
        appointment_id := Option.none, doctor_name := Option.none, db := wDb,
        connOpened := false, connClosed := false } :=
  ⟨book_falsy_field_is_missing.1 wBookDoc0 wNow wDb BookFail.none
      ["patient_name", "patient_email"]
      ["appointment_date", "appointment_time"] "doctor_id" (JsonVal.int 0)
      rfl (by decide) rfl (by decide),
   book_falsy_field_is_missing.2 wBookDoc0 wNow wDb BookFail.none rfl⟩

/-- C9 witness: the valid update overwrites the stored notes "old notes"
with the supplied notes and stamps the update time. -/
theorem update_overwrites_notes_witness :
    (updateAppointment 1 wUpd 5 wDb UpdateFail.none).status = 200 ∧
    (updateAppointment 1 wUpd 5 wDb UpdateFail.none).db.appointments =
      wDb.appointments.map (fun a =>
        if a.id == 1 then
          { a with status := "confirmed", notes := wUpd.notes.getD "",
                   updated_at := 5 }
        else a) :=
  update_overwrites_notes 1 wUpd 5 wDb "confirmed" rfl (by decide)
    ⟨wAppt, by decide, rfl⟩

/-- C10 witness: a successful chat exchange carries the literal timestamp
"now". -/
theorem chat_timestamp_constant_witness :
    (chat (some (JsonVal.str "hello")) Option.none "u-2"
        (GenResult.ok (some "hi there")) PersistFail.none wChatDb).timestamp =
      some "now" :=
  chat_timestamp_constant (some (JsonVal.str "hello")) Option.none "u-2"
    (GenResult.ok (some "hi there")) PersistFail.none wChatDb (by decide)
